import Mathlib

/-
Verification development for the ActivebatchAdmin remote-object proxy layer
(src/Objects/api.py and src/Objects/enumerations.py), shallowly embedded in
Lean 4.  Remote COM handles are modelled by explicit data, fallible Python
code by Except, and mutable caches by explicit state passing.
-/

set_option maxRecDepth 8000
set_option maxHeartbeats 2000000

namespace ActivebatchAdmin

/-- Python exception values observable at the proxy layer.  Each constructor
corresponds to a Python exception class raised somewhere in the source. -/
inductive PyErr where
  | attributeError (msg : String)
  | comError (msg : String)
  | runtimeError (msg : String)
  | typeError (msg : String)
  | valueError (msg : String)
  | keyError (msg : String)
deriving DecidableEq, Repr

/-- Decidable equality for Except values, used to evaluate the embedded
fallible operations inside decidable statements. -/
instance {ε α : Type} [DecidableEq ε] [DecidableEq α] : DecidableEq (Except ε α) := fun a b =>
  match a, b with
  | Except.ok x, Except.ok y =>
      if h : x = y then Decidable.isTrue (by rw [h])
      else Decidable.isFalse (by intro hh; exact h (Except.ok.inj hh))
  | Except.error x, Except.error y =>
      if h : x = y then Decidable.isTrue (by rw [h])
      else Decidable.isFalse (by intro hh; exact h (Except.error.inj hh))
  | Except.ok _, Except.error _ => Decidable.isFalse (by intro hh; exact Except.noConfusion hh)
  | Except.error _, Except.ok _ => Decidable.isFalse (by intro hh; exact Except.noConfusion hh)

/-! ### Capability-gated dispatch (src/Objects/api.py, Decorators.runnable, lines 46-85)

The decorator argument ab_classes is either a single string or a list of
strings; the gate at line 51 is the Python test
  'All' in ab_classes or __clsname in ab_classes
where the membership operator is exact list membership when ab_classes is a
list, and substring containment when ab_classes is a single string. -/

/-- Argument shape of the Decorators.runnable decorator: a single class name
string or a list of class name strings, exactly as written in the source. -/
inductive AllowSpec where
  | str (s : String)
  | list (l : List String)
deriving DecidableEq, Repr

/-- Tests whether the character list needle is a prefix of hay. -/
def listStartsWith : List Char → List Char → Bool
  | [], _ => true
  | _ :: _, [] => false
  | a :: as, b :: bs => a == b && listStartsWith as bs

/-- Tests whether the character list needle occurs contiguously inside hay. -/
def listHasInfix (needle : List Char) : List Char → Bool
  | [] => listStartsWith needle []
  | c :: rest => listStartsWith needle (c :: rest) || listHasInfix needle rest

/-- Python substring containment: needle in hay for strings. -/
def pyStrContains (needle hay : String) : Bool :=
  listHasInfix needle.toList hay.toList

/-- Python membership test v in ab_classes as it behaves at line 51 of
api.py: substring containment for a string spec, exact membership for a
list spec. -/
def pyIn (v : String) : AllowSpec → Bool
  | .str s => pyStrContains v s
  | .list l => l.contains v

/-- Gate condition of Decorators.runnable (api.py line 51):
'All' in ab_classes or __clsname in ab_classes. -/
def runnableAllows (spec : AllowSpec) (clsname : String) : Bool :=
  pyIn "All" spec || pyIn clsname spec

/-- Error data carried by the AttributeError built at api.py lines 75-78:
the method name, the calling class name, and the joined allow-spec text. -/
structure CapabilityError where
  operation : String
  variant : String
  allowedVariants : String
deriving DecidableEq, Repr

/-- Joins a list of strings with a separator. -/
def joinWith (sep : String) : List String → String
  | [] => ""
  | [x] => x
  | x :: rest => x ++ sep ++ joinWith sep rest

/-- Python expression ', '.join(ab_classes) as used in the error message at
line 76: joins list elements for a list spec, but joins the individual
characters when ab_classes is a single string. -/
def pyJoinSpec : AllowSpec → String
  | .str s => joinWith ", " (s.toList.map (fun c => String.mk [c]))
  | .list l => joinWith ", " l

/-- One dispatch through the Decorators.runnable wrapper (api.py lines
47-81).  The result records whether the wrapped remote call ran (first
component; an error means the AttributeError of lines 75-78 was raised
instead) and how many remote calls were attempted (second component). -/
def runnableInvoke (op : String) (spec : AllowSpec) (variant : String) :
    Except CapabilityError Unit × Nat :=
  if runnableAllows spec variant then (Except.ok (), 1)
  else (Except.error ⟨op, variant, pyJoinSpec spec⟩, 0)

/-- Proxy classes defined in src/Objects/api.py; type(instance).__name__ of a
proxy is always one of these. -/
def variantNames : List String :=
  ["JobScheduler", "ServiceLibrary", "Job", "JobLite", "Alerts", "AlertsLite",
   "UserAccount", "Placeholder", "Calendar", "CalendarLite", "Schedule",
   "ScheduleLite", "Plan", "PlanLite", "JobAlert", "Folder", "FolderLite"]

/-- Full capability table: every @Decorators.runnable decoration in
src/Objects/api.py, in source order, first the AllAttributes properties
(lines 100-261) and then the AllMethods methods (lines 299-781).
CreateObject is defined twice in the AllMethods class body (lines 355-357
and 770-777); the later JobScheduler-gated definition shadows the earlier
one, so the table records only the effective entry.  IsPropertyLocked is
defined twice with identical decorations and appears once. -/
def capabilityTable : List (String × AllowSpec) :=
  [("ObjectType", .str "All"),
   ("Auditing", .str "All"),
   ("Defaults", .str "All"),
   ("Path", .str "All"),
   ("FullPath", .str "All"),
   ("GlobalDisable", .str "All"),
   ("ID", .str "All"),
   ("IsDeleted", .list ["ObjectLite", "CalendarLite", "QueueLite",
      "UserAccountLite", "FolderLite", "AbatReferenceLite", "IAbatObjectLite",
      "JobLite", "PlanLite", "ResourceLite", "ObjectListLite",
      "ServiceLibraryLite", "ScheduleLite"]),
   ("QueueObjectID", .list ["Job"]),
   ("Label", .str "All"),
   ("Name", .str "All"),
   ("NextDate", .str "CalendarLite"),
   ("Owner", .str "All"),
   ("ParentID", .str "All"),
   ("RevisionID", .str "All"),
   ("Tags", .str "All"),
   ("CalendarType", .list ["Schedule"]),
   ("CreationDateTime", .str "All"),
   ("EnableActiveBatchEventTriggers", .list ["Job", "JobLite", "Plan", "Reference"]),
   ("Enabled", .str "All"),
   ("EnableEventTriggers", .list ["Job", "JobLite", "Plan", "Reference"]),
   ("EnableRunImmediately", .list ["Job", "JobLite"]),
   ("EnableTimerTriggers", .list ["Job", "JobLite", "Plan", "Reference"]),
   ("ExecutionDateTime", .list ["JobLite", "JobHistoryInstance"]),
   ("LastInstanceExecutionDateTime", .list ["Plan", "PlanLite", "Job", "JobLite", "ReferenceLite"]),
   ("NextScheduledExecutionDateTime", .list ["PlanLite", "Job", "JobLite", "ReferenceLite"]),
   ("EnableLogging", .list ["Job"]),
   ("RetainLogFileDuration", .list ["Job"]),
   ("LoggingMethod", .list ["Job"]),
   ("SaveJobHistoryDuration", .list ["Job"]),
   ("Connect", .str "JobScheduler"),
   ("Disconnect", .str "JobScheduler"),
   ("Delete", .str "All"),
   ("DeleteEx", .str "All"),
   ("Disable", .str "All"),
   ("Enable", .str "All"),
   ("RefreshData", .str "All"),
   ("GetAssociations", .str "All"),
   ("GetAuditsEx", .str "All"),
   ("PurgeObject", .str "All"),
   ("RestoreObject", .str "All"),
   ("AddObject", .list ["Plan", "PlanLite", "Folder", "FolderLite", "JobScheduler"]),
   ("FlushInstances", .list ["Plan", "PlanLite", "Queue", "QueueLite",
      "Reference", "ReferenceLite", "Job", "JobLite"]),
   ("GetObjectType", .list ["JobScheduler"]),
   ("GetAbatObject", .list ["AlertObjectLite", "Calendar", "Folder",
      "JobScheduler", "Plan", "PlanLite", "QueueLite", "ReferenceLite",
      "ResourceLite", "ScheduleLite", "UserAccountLite", "FolderLite",
      "JobLite", "ObjectListLite", "ServiceLibraryLite"]),
   ("GetAbatObjectLite", .str "JobScheduler"),
   ("GetAlertsEx", .list ["JobScheduler", "Job", "Plan", "Queue", "Reference"]),
   ("GetAssociatedAlertObjects", .list ["Job", "Plan", "Queue", "Reference"]),
   ("GetAssociatedCalendarsObjectId", .list ["Job", "Plan", "Reference", "Schedule"]),
   ("GetAssociatedSchedules", .list ["Job", "Plan", "Reference"]),
   ("GetAssociatedSchedulesObjectId", .list ["Job", "Plan", "Reference"]),
   ("GetBatchStarts", .list ["Job", "Plan", "Reference"]),
   ("GetCompletionRules", .str "Plan"),
   ("GetCounters", .list ["Plan", "PlanLite", "JobScheduler", "Queue",
      "QueueLite", "Reference", "ReferenceLite", "Job", "JobLite", "RecycleBin"]),
   ("GetDependencies", .list ["Job", "Plan", "Reference", "JobScheduler"]),
   ("GetEventTriggers", .list ["Job", "Plan", "Reference"]),
   ("GetExclusionList", .list ["Job", "Plan", "Reference"]),
   ("GetJobPolicy", .str "Plan"),
   ("GetObjectsLite", .list ["Plan", "JobScheduler", "Folder", "FolderLite", "RecycleBin"]),
   ("GetSecurityAccounts", .list ["Plan", "Folder", "JobScheduler",
      "AlertObject", "Calendar", "IAbatObject", "Job", "ObjectList", "Queue",
      "Reference", "ResourceObject", "Schedule", "ServiceLibrary", "tag",
      "UserAccount"]),
   ("GetVariables", .list ["Plan", "Folder", "JobScheduler", "Job",
      "JobHistory", "Queue", "Reference", "UserAccount"]),
   ("HasPermission", .list ["Plan", "Folder", "AlertObject", "Calendar",
      "IAbatObject", "Job", "ObjectList", "Queue", "Reference",
      "ResourceObject", "Schedule", "ServiceLibrary", "UserAccount"]),
   ("IsDirty", .list ["Plan", "Folder", "JobScheduler", "AlertObject",
      "Calendar", "IAbatObject", "Job", "ObjectList", "Queue", "Reference",
      "ResourceObject", "Schedule", "ServiceLibrary", "UserAccount"]),
   ("IsPublished", .list ["Plan", "PlanLite", "Folder", "FolderLite"]),
   ("Publish", .list ["Plan", "PlanLite", "Folder", "FolderLite"]),
   ("ResetAverage", .list ["Plan", "PlanLite", "Reference", "ReferenceLite",
      "Job", "JobLite", "MonitoringProps"]),
   ("ResetCounters", .list ["Queue", "QueueLite", "Plan", "PlanLite",
      "Reference", "ReferenceLite", "Job", "JobLite"]),
   ("TakeOwnership", .list ["Folder", "FolderLite", "Plan", "PlanLite"]),
   ("Unpublish", .list ["Folder", "JobScheduler", "Policy", "AlertObject",
      "Calendar", "IAbatObject", "Job", "JobHistoryInstance", "ObjectList",
      "Plan", "Queue", "Reference", "ResourceObject", "Schedule",
      "ServiceLibrary", "UserAccount"]),
   ("Update", .list ["Folder", "JobScheduler", "Policy", "AlertObject",
      "Calendar", "IAbatObject", "Job", "JobHistoryInstance", "ObjectList",
      "Plan", "Queue", "Reference", "ResourceObject", "Schedule",
      "ServiceLibrary", "UserAccount"]),
   ("UpdateCounters", .list ["JobScheduler", "Plan", "PlanLite", "Queue",
      "QueueLite", "Reference", "ReferenceLite", "Job", "JobLite"]),
   ("GetAssociatedJobs", .list ["AlertObject", "Calendar", "ObjectList",
      "Schedule", "UserAccount"]),
   ("GetExactDates", .str "Schedule"),
   ("GetScheduledDates", .str "Schedule"),
   ("TimeSpec_GetExactTimes", .str "Schedule"),
   ("Trigger3", .list ["Plan", "PlanLite", "Job", "JobLite", "Reference", "ReferenceLite"]),
   ("GetChildInstances", .list ["Folder", "FolderLite"]),
   ("IsPropertyLocked", .list ["Folder", "IAbatObject", "Job", "ServiceLibrary"]),
   ("GetInstances", .list ["JobScheduler", "PlanLite", "QueueLite",
      "ReferenceLite", "JobLite", "Job"]),
   ("MoveObject", .list ["JobScheduler"]),
   ("MoveObjectTo", .list ["JobScheduler"]),
   ("CopyObject", .list ["AlertObject", "Job", "ObjectList", "Schedule"]),
   ("CopyObjectTo", .list ["JobScheduler"]),
   ("ObjectExists", .list ["JobScheduler"]),
   ("CreateObject", .list ["JobScheduler"]),
   ("Search", .list ["JobScheduler"])]

/-- Allow-set of an operation as the specification reads it: the listed
names for a list spec, the single name for a string spec. -/
def allowSetOf : AllowSpec → List String
  | .str s => [s]
  | .list l => l

/-- Dispatch rule as the claim states it: the allow-list contains the
wildcard 'All' or contains the variant name. -/
def claimAllows (spec : AllowSpec) (v : String) : Bool :=
  (allowSetOf spec).contains "All" || (allowSetOf spec).contains v

/-- Pairs on which the source's substring semantics for string-valued
allow-specs deviates from exact allow-list membership. -/
def substringDeviation (spec : AllowSpec) (v : String) : Bool :=
  (spec == .str "JobScheduler" && (v == "Job" || v == "Schedule")) ||
  (spec == .str "CalendarLite" && v == "Calendar")

/-! ### Type resolution with errata compensation
(AllMethods.GetObjectType, api.py lines 363-407) -/

/-- ObjectType integer mapping from src/Objects/enumerations.py lines 72-94. -/
def objectTypeMapping : List (String × Nat) :=
  [("Unknown", 0), ("ServiceLibrary", 1), ("abatOT_Job", 2), ("abatOT_Plan", 3),
   ("abatOT_Queue", 4), ("abatOT_Schedule", 5), ("abatOT_Calendar", 6),
   ("abatOT_UserAccount", 7), ("abatOT_ResourceObject", 8), ("abatOT_AlertObject", 9),
   ("abatOT_Reference", 10), ("abatOT_Instance", 11), ("abatOT_JobScheduler", 12),
   ("abatOT_ServiceLibrary", 13), ("abatOT_Folder", 14), ("abatOT_GenericQueue", 15),
   ("abatOT_ObjectList", 16)]

/-- BaseEnumeration str_mapping lookup (enumerations.py lines 15-22): maps a
raw integer code to its member name, raising KeyError for an unknown code. -/
def enumName (mapping : List (String × Nat)) (code : Nat) : Except PyErr String :=
  match mapping.find? (fun p => p.2 == code) with
  | some p => Except.ok p.1
  | none => Except.error (PyErr.keyError (toString code))

/-- Name lookup in the ObjectType enumeration. -/
def objectTypeName (code : Nat) : Except PyErr String :=
  enumName objectTypeMapping code

/-- Readability of the two probe attributes on a fetched full object, as the
version-9 disambiguation heuristic observes it: whether reading the
attribute succeeds or raises AttributeError through the COM. -/
structure AbatHandle where
  hasDisableTemplateOnError : Bool
  hasReplacePermissionsOnChildObjects : Bool
deriving DecidableEq, Repr

namespace AllMethods

/-- AllMethods.GetObjectType (api.py lines 363-407).  rawType is the integer
the remote GetObjectType reports for the key, version the connected service
version.  First component: the returned type code, or the re-raised
AttributeError of the failed second probe (the fatal ambiguous case).
Second component: the attribute names probed on the fetched full object, in
order; it is empty exactly when no full-object fetch and no probing
happened. -/
def GetObjectType (version : Nat) (rawType : Nat) (handle : AbatHandle) :
    Except PyErr Nat × List String :=
  if version ≤ 9 then
    if rawType = 3 then
      if handle.hasDisableTemplateOnError then
        (Except.ok 3, ["DisableTemplateOnError"])
      else if handle.hasReplacePermissionsOnChildObjects then
        (Except.ok 14, ["DisableTemplateOnError", "ReplacePermissionsOnChildObjects"])
      else
        (Except.error (PyErr.attributeError "ReplacePermissionsOnChildObjects"),
         ["DisableTemplateOnError", "ReplacePermissionsOnChildObjects"])
    else (Except.ok rawType, [])
  else (Except.ok rawType, [])

end AllMethods

/-! ### PathResolver (AllMethods._create_intermediate_folders, api.py lines 658-696) -/

/-- Existence probe ObjectExists(key), modelled as membership of the key in
the list of objects existing in the remote tree. -/
def ObjectExistsIn (tree : List String) (key : String) : Bool :=
  tree.contains key

/-- Digits of an all-digit string read as a number. -/
def digitsToNat : List Char → Nat → Nat
  | [], acc => acc
  | c :: rest, acc => digitsToNat rest (acc * 10 + (c.toNat - 48))

/-- Python int(s) applied to a destination key, succeeding on the plain
numeric IDs the claims are about: nonempty all-digit strings. -/
def pyIntParse (s : String) : Option Nat :=
  if s.length != 0 && s.toList.all Char.isDigit then some (digitsToNat s.toList 0)
  else none

/-- Python str.split on the slash character. -/
def splitCharsOnSlash : List Char → List (List Char)
  | [] => [[]]
  | c :: rest =>
      let r := splitCharsOnSlash rest
      if c == '/' then [] :: r
      else
        match r with
        | [] => [[c]]
        | h :: t => (c :: h) :: t

/-- Slash components of a destination key; a leading slash yields a first
empty component, as in Python. -/
def pySplitSlash (s : String) : List String :=
  (splitCharsOnSlash s.toList).map (fun l => String.mk l)

/-- Record built for each path component at api.py lines 682-683. -/
structure PathComponent where
  key : String
  parent : String
  present : Bool
  label : String
deriving DecidableEq, Repr

/-- Result of the inner which_exists helper (api.py lines 659-686): a
singleton dict keyed by the integer destination when the key parses as an
integer, otherwise the list of path component records.  Every existence
probe is made here, against the tree as it is before any creation. -/
inductive WhichExistsResult where
  | numericDict (key : Nat) (present : Bool)
  | pathList (items : List PathComponent)
deriving DecidableEq, Repr

/-- The which_exists helper.  Note the idx = 1 special case of api.py lines
674-675: the probed key for the first real component is the literal root
path '/', not the component's own path. -/
def whichExists (tree : List String) (destinationKey : String) : WhichExistsResult :=
  match pyIntParse destinationKey with
  | some n => WhichExistsResult.numericDict n (ObjectExistsIn tree destinationKey)
  | none =>
      let comps := pySplitSlash destinationKey
      WhichExistsResult.pathList ((List.range comps.length).filterMap fun idx =>
        if idx = 0 then none
        else
          let currpath := if idx = 1 then "/" else joinWith "/" (comps.take (idx + 1))
          let label := (comps.drop idx).headD ""
          let parent := joinWith "/" (comps.take idx)
          some { key := currpath, parent := parent,
                 present := ObjectExistsIn tree currpath, label := label })

/-- One folder creation performed by the loop at api.py lines 688-696: a new
Folder object labelled label is added under the key parent. -/
structure Creation where
  key : String
  parent : String
  label : String
deriving DecidableEq, Repr

/-- AllMethods._create_intermediate_folders.  In the numeric-key case the
source iterates the int-keyed dict, so the loop variable is the integer
itself and the first subscript item['key'] raises TypeError in Python.  In
the path case, a Folder is created for every component whose probe (taken
before any creation) found nothing. -/
def create_intermediate_folders (tree : List String) (destinationKey : String) :
    Except PyErr (List Creation) :=
  match whichExists tree destinationKey with
  | WhichExistsResult.numericDict _ _ =>
      Except.error (PyErr.typeError "argument of type 'int' is not subscriptable")
  | WhichExistsResult.pathList items =>
      Except.ok (items.filterMap fun c =>
        if c.present then none else some ⟨c.key, c.parent, c.label⟩)

/-- Checks that every creation's parent exists at the moment the new folder
is attached, threading the effect of each AddObject: a folder labelled l
attached under parent p makes the object p ++ "/" ++ l exist. -/
def attachRootToLeaf (tree : List String) : List Creation → Bool
  | [] => true
  | c :: rest =>
      tree.contains c.parent &&
        attachRootToLeaf (tree ++ [c.parent ++ "/" ++ c.label]) rest

/-! ### Schedule enumerations (src/Objects/enumerations.py lines 185-319) -/

/-- ScheduleDaySpecType mapping (enumerations.py lines 201-208). -/
def scheduleDaySpecTypeMapping : List (String × Nat) :=
  [("abatSDST_None", 0), ("abatSDST_Daily", 1), ("abatSDST_Weekly", 2),
   ("abatSDST_Monthly", 3), ("abatSDST_Yearly", 4), ("abatSDST_Quarterly", 5),
   ("abatSDST_Custom", 6)]

/-- ScheduleTimeSpecType mapping (enumerations.py lines 224-228). -/
def scheduleTimeSpecTypeMapping : List (String × Nat) :=
  [("abatSTST_HoursMinutes", 1), ("abatSTST_ExactTimes", 2), ("abatSTST_Every", 3)]

/-- ScheduleMonthlyType mapping (enumerations.py lines 235-238). -/
def scheduleMonthlyTypeMapping : List (String × Nat) :=
  [("abatSMT_Day", 1), ("abatSMT_Nth", 2), ("abatSMT_Series", 3)]

/-- ScheduleInstanceDay mapping (enumerations.py lines 246-256). -/
def scheduleInstanceDayMapping : List (String × Nat) :=
  [("abatSID_WeekendDay", 0), ("abatSID_Sunday", 1), ("abatSID_Monday", 2),
   ("abatSID_Tuesday", 3), ("abatSID_Wednesday", 4), ("abatSID_Thursday", 5),
   ("abatSID_Friday", 6), ("abatSID_Saturday", 7), ("abatSID_Day", 8),
   ("abatSID_WeekDay", 9)]

/-- ScheduleInstanceType mapping (enumerations.py lines 267-272). -/
def scheduleInstanceTypeMapping : List (String × Nat) :=
  [("abatSIT_First", 1), ("abatSIT_Second", 2), ("abatSIT_Third", 3),
   ("abatSIT_Fourth", 4), ("abatSIT_Last", 5)]

/-- ScheduleDays bitmask mapping (enumerations.py lines 286-293), listed in
bit order from the low bit Sunday = 1 to the high bit Saturday = 64. -/
def scheduleDaysMapping : List (String × Nat) :=
  [("abatSD_Sunday", 1), ("abatSD_Monday", 2), ("abatSD_Tuesday", 4),
   ("abatSD_Wednesday", 8), ("abatSD_Thursday", 16), ("abatSD_Friday", 32),
   ("abatSD_Saturday", 64)]

/-- Low-bit-first powers of two present in value, as computed from the
reversed binary string at enumerations.py lines 298-305 (the list named
_decimals there). -/
def bitDecimals (value : Nat) : List Nat :=
  (List.range (value + 1)).filterMap fun i =>
    if value.testBit i then some (2 ^ i) else none

/-- ScheduleDays.__init__ (enumerations.py lines 285-319) evaluated
faithfully.  The nested helper that builds str_days evaluates
super().str_mapping[_dec] for each set bit inside a nested function that
takes no arguments, and Python's zero-argument super() raises
RuntimeError('super(): no arguments') when the calling frame has no
arguments, so construction fails whenever at least one bit is set; with no
set bits the loop body never runs and both lists come out empty. -/
def ScheduleDays.construct (value : Nat) : Except PyErr (List String × List Nat) :=
  match bitDecimals value with
  | [] => Except.ok ([], [])
  | _ :: _ => Except.error (PyErr.runtimeError "super(): no arguments")

/-- Modelled intent of the str_days helper: the reference to
super().str_mapping can only have meant the instance str_mapping that
BaseEnumeration.__init__ has just assigned (the zero-argument super() call
cannot be evaluated there at all), so each low-bit-first power of two is
mapped to its day name through the inverted mapping. -/
def ScheduleDays.str_days_intended (value : Nat) : List String :=
  (bitDecimals value).filterMap fun d =>
    (scheduleDaysMapping.find? (fun p => p.2 == d)).map Prod.fst

/-- The int_days helper (enumerations.py lines 312-316) under the same
repair: each produced day name is mapped back through int_mapping. -/
def ScheduleDays.int_days_intended (value : Nat) : List Nat :=
  (ScheduleDays.str_days_intended value).map fun n =>
    ((scheduleDaysMapping.find? (fun p => p.1 == n)).map Prod.snd).getD 0

/-- Day names whose bit value is set in value, read off the bitmask mapping
in low-bit-first order: the reference reading of the claim. -/
def setDayNames (value : Nat) : List String :=
  (scheduleDaysMapping.filter (fun p => value &&& p.2 != 0)).map Prod.fst

/-- Bit values set in value, in the same low-bit-first order. -/
def setDayBits (value : Nat) : List Nat :=
  (scheduleDaysMapping.filter (fun p => value &&& p.2 != 0)).map Prod.snd

/-! ### Schedule name synthesis (api.py lines 1133-1242) -/

/-- Day/time specification attributes read from the schedule COM object by
Schedule._typemapper and its helpers. -/
structure ScheduleSpecData where
  daySpec_Type : Nat
  timeSpec_Type : Nat
  daySpec_DailyInterval : Nat
  daySpec_WeeklyDaysOfWeek : Nat
  daySpec_WeeklyInterval : Nat
  daySpec_MonthlyType : Nat
  daySpec_MonthlyInterval : Nat
  daySpec_MonthlyDayOfMonth : Nat
  daySpec_MonthlyInstance : Nat
  daySpec_MonthlyDayOfWeek : Nat
  daySpec_MonthlyDaySeries : String
  timeSpec_Hours : Nat
  timeSpec_Minutes : Nat
  timeSpec_Interval : Nat
  timeSpec_ExactTimes : List (Nat × Nat)
deriving Repr

/-- Extraction performed by the regular expression searches of the source
(re.search with a group after the last underscore): the characters after the
last underscore of an enumeration member name. -/
def afterLastUnderscore (s : String) : String :=
  String.mk (s.toList.foldl (fun acc c => if c == '_' then [] else acc ++ [c]) [])

/-- Python format f with the 0>2 specifier: the decimal string left-padded
with the zero character to width two. -/
def pad2 (n : Nat) : String :=
  let s := toString n
  if s.length < 2 then "0" ++ s else s

/-- Schedule._d_daily (api.py lines 1160-1166). -/
def Schedule.d_daily (interval : Nat) : String :=
  let plural := if interval = 1 then "Day" else "Days"
  let istr := if interval != 1 then toString interval else ""
  "Every" ++ istr ++ plural

/-- Schedule._d_weekly (api.py lines 1168-1179), faithful to the source: the
day series is obtained by constructing enum.ScheduleDays, which fails with
RuntimeError for every nonzero bitmask (see ScheduleDays.construct). -/
def Schedule.d_weekly (interval daysOfWeek : Nat) : Except PyErr String :=
  match ScheduleDays.construct daysOfWeek with
  | Except.error e => Except.error e
  | Except.ok (dayseries, _) =>
      let daynames := dayseries.map fun x => String.mk ((afterLastUnderscore x).toList.take 3)
      let daystrings := String.join daynames
      let plural := if interval = 1 then "Week" else "Weeks"
      let istr := if interval != 1 then toString interval else ""
      Except.ok ("Every" ++ istr ++ plural ++ "." ++ daystrings)

/-- Schedule._d_weekly with the ScheduleDays construction repaired to its
modelled intent (ScheduleDays.str_days_intended). -/
def Schedule.d_weekly_repaired (interval daysOfWeek : Nat) : String :=
  let dayseries := ScheduleDays.str_days_intended daysOfWeek
  let daynames := dayseries.map fun x => String.mk ((afterLastUnderscore x).toList.take 3)
  let daystrings := String.join daynames
  let plural := if interval = 1 then "Week" else "Weeks"
  let istr := if interval != 1 then toString interval else ""
  "Every" ++ istr ++ plural ++ "." ++ daystrings

/-- Python str.replace of commas by spaces, used for monthly day series. -/
def replaceCommas (s : String) : String :=
  String.mk (s.toList.map fun c => if c == ',' then ' ' else c)

/-- Schedule._d_monthly (api.py lines 1181-1220), with its three sub-kinds:
fixed day of month (ordinal suffix chosen from the last digit of the decimal
string only), Nth weekday, and explicit day series. -/
def Schedule.d_monthly (montypeCode interval dayOfMonth instanceCode dayOfWeekCode : Nat)
    (daySeries : String) : Except PyErr String :=
  match enumName scheduleMonthlyTypeMapping montypeCode with
  | Except.error e => Except.error e
  | Except.ok montype =>
      let plural := if interval = 1 then "Month" else "Months"
      let istr := if interval != 1 then toString interval else ""
      if montype == "abatSMT_Day" then
        let ds := toString dayOfMonth
        let lastc := ds.toList.getLastD '0'
        let suffix :=
          if lastc == '1' then "st"
          else if lastc == '2' then "nd"
          else if lastc == '3' then "rd"
          else "th"
        Except.ok ("Every" ++ istr ++ plural ++ "." ++ ds ++ suffix)
      else if montype == "abatSMT_Nth" then
        match enumName scheduleInstanceTypeMapping instanceCode with
        | Except.error e => Except.error e
        | Except.ok instName =>
            match enumName scheduleInstanceDayMapping dayOfWeekCode with
            | Except.error e => Except.error e
            | Except.ok dayName =>
                Except.ok ("Every" ++ istr ++ plural ++ "." ++
                  afterLastUnderscore instName ++ afterLastUnderscore dayName)
      else if montype == "abatSMT_Series" then
        Except.ok ("Every" ++ istr ++ plural ++ "." ++ replaceCommas daySeries)
      else Except.ok ""

/-- Schedule._t_hoursminutes (api.py lines 1222-1226). -/
def Schedule.t_hoursminutes (hours minutes : Nat) : String :=
  pad2 hours ++ pad2 minutes

/-- Schedule._t_exacttimes (api.py lines 1228-1237). -/
def Schedule.t_exacttimes (times : List (Nat × Nat)) : String :=
  joinWith "_" (times.map fun t => pad2 t.1 ++ pad2 t.2)

/-- Schedule._t_every (api.py lines 1239-1242). -/
def Schedule.t_every (interval : Nat) : String :=
  "Every_" ++ toString interval ++ "m"

/-- Schedule._typemapper (api.py lines 1133-1158): looks up both spec type
names, selects the day component by day-spec kind (empty for Yearly and
Quarterly and for the unhandled kinds), the time component by time-spec
kind, and joins them with an underscore. -/
def Schedule.typemapper (spec : ScheduleSpecData) : Except PyErr String :=
  match enumName scheduleDaySpecTypeMapping spec.daySpec_Type with
  | Except.error e => Except.error e
  | Except.ok daytype =>
  match enumName scheduleTimeSpecTypeMapping spec.timeSpec_Type with
  | Except.error e => Except.error e
  | Except.ok timetype =>
  let daystrE : Except PyErr String :=
    if daytype == "abatSDST_Daily" then Except.ok (Schedule.d_daily spec.daySpec_DailyInterval)
    else if daytype == "abatSDST_Weekly" then
      Schedule.d_weekly spec.daySpec_WeeklyInterval spec.daySpec_WeeklyDaysOfWeek
    else if daytype == "abatSDST_Monthly" then
      Schedule.d_monthly spec.daySpec_MonthlyType spec.daySpec_MonthlyInterval
        spec.daySpec_MonthlyDayOfMonth spec.daySpec_MonthlyInstance
        spec.daySpec_MonthlyDayOfWeek spec.daySpec_MonthlyDaySeries
    else Except.ok ""
  match daystrE with
  | Except.error e => Except.error e
  | Except.ok daystr =>
  let timestrE : Except PyErr String :=
    if timetype == "abatSTST_HoursMinutes" then
      Except.ok (Schedule.t_hoursminutes spec.timeSpec_Hours spec.timeSpec_Minutes)
    else if timetype == "abatSTST_ExactTimes" then
      Except.ok (Schedule.t_exacttimes spec.timeSpec_ExactTimes)
    else if timetype == "abatSTST_Every" then
      Except.ok (Schedule.t_every spec.timeSpec_Interval)
    else Except.ok ""
  match timestrE with
  | Except.error e => Except.error e
  | Except.ok timestr => Except.ok (daystr ++ "_" ++ timestr)

/-- Schedule._typemapper with the weekly branch repaired as in
Schedule.d_weekly_repaired; all other branches unchanged. -/
def Schedule.typemapper_repaired (spec : ScheduleSpecData) : Except PyErr String :=
  match enumName scheduleDaySpecTypeMapping spec.daySpec_Type with
  | Except.error e => Except.error e
  | Except.ok daytype =>
  match enumName scheduleTimeSpecTypeMapping spec.timeSpec_Type with
  | Except.error e => Except.error e
  | Except.ok timetype =>
  let daystrE : Except PyErr String :=
    if daytype == "abatSDST_Daily" then Except.ok (Schedule.d_daily spec.daySpec_DailyInterval)
    else if daytype == "abatSDST_Weekly" then
      Except.ok (Schedule.d_weekly_repaired spec.daySpec_WeeklyInterval spec.daySpec_WeeklyDaysOfWeek)
    else if daytype == "abatSDST_Monthly" then
      Schedule.d_monthly spec.daySpec_MonthlyType spec.daySpec_MonthlyInterval
        spec.daySpec_MonthlyDayOfMonth spec.daySpec_MonthlyInstance
        spec.daySpec_MonthlyDayOfWeek spec.daySpec_MonthlyDaySeries
    else Except.ok ""
  match daystrE with
  | Except.error e => Except.error e
  | Except.ok daystr =>
  let timestrE : Except PyErr String :=
    if timetype == "abatSTST_HoursMinutes" then
      Except.ok (Schedule.t_hoursminutes spec.timeSpec_Hours spec.timeSpec_Minutes)
    else if timetype == "abatSTST_ExactTimes" then
      Except.ok (Schedule.t_exacttimes spec.timeSpec_ExactTimes)
    else if timetype == "abatSTST_Every" then
      Except.ok (Schedule.t_every spec.timeSpec_Interval)
    else Except.ok ""
  match timestrE with
  | Except.error e => Except.error e
  | Except.ok timestr => Except.ok (daystr ++ "_" ++ timestr)

/-- Weekly schedule with interval 1, days Monday and Wednesday (bitmask
2 + 8 = 10), time HoursMinutes 09:01. -/
def weeklySpecMonWed : ScheduleSpecData :=
  { daySpec_Type := 2, timeSpec_Type := 1, daySpec_DailyInterval := 1,
    daySpec_WeeklyDaysOfWeek := 10, daySpec_WeeklyInterval := 1,
    daySpec_MonthlyType := 1, daySpec_MonthlyInterval := 1,
    daySpec_MonthlyDayOfMonth := 1, daySpec_MonthlyInstance := 1,
    daySpec_MonthlyDayOfWeek := 1, daySpec_MonthlyDaySeries := "",
    timeSpec_Hours := 9, timeSpec_Minutes := 1, timeSpec_Interval := 0,
    timeSpec_ExactTimes := [] }

/-- Weekly schedule with interval 2, days Tuesday and Thursday (bitmask
4 + 16 = 20), time HoursMinutes 14:30: the end-to-end scenario. -/
def weeklySpecTueThu : ScheduleSpecData :=
  { daySpec_Type := 2, timeSpec_Type := 1, daySpec_DailyInterval := 1,
    daySpec_WeeklyDaysOfWeek := 20, daySpec_WeeklyInterval := 2,
    daySpec_MonthlyType := 1, daySpec_MonthlyInterval := 1,
    daySpec_MonthlyDayOfMonth := 1, daySpec_MonthlyInstance := 1,
    daySpec_MonthlyDayOfWeek := 1, daySpec_MonthlyDaySeries := "",
    timeSpec_Hours := 14, timeSpec_Minutes := 30, timeSpec_Interval := 0,
    timeSpec_ExactTimes := [] }

/-! ### Error propagation and local recovery (api.py lines 56-81, 434-444, 770-777) -/

/-- Log records emitted by the three except branches of Decorators.runnable
(api.py lines 59-73).  The AttributeError branch logs a warning naming the
method and the bound arguments (not the class), the com_error branch logs an
error naming the method, the class, the bound arguments and the
remote-supplied description, and every branch additionally logs the caught
exception itself; the generic branch logs only that, with no call
context. -/
inductive LogRecord where
  | attributeWarning (operation args : String)
  | comErrorContext (operation clsname args description : String)
  | exceptionOnly (e : PyErr)
deriving DecidableEq, Repr

/-- Decorators.runnable around a permitted call (api.py lines 56-73): a
successful body result is returned unchanged; a failing body is re-raised
after the logging of the except branch that catches it.  An AttributeError
is logged with a warning carrying the method name and bound arguments plus
the exception record; a com_error with an error message carrying the method
name, class name, bound arguments and remote description plus the exception
record; any other failure only with the exception record, carrying no call
context.  The second component collects the log records in emission
order. -/
def runnableForward (op clsname args : String) (body : Except PyErr α) :
    Except PyErr α × List LogRecord :=
  match body with
  | Except.ok r => (Except.ok r, [])
  | Except.error (PyErr.attributeError m) =>
      (Except.error (PyErr.attributeError m),
       [LogRecord.attributeWarning op args,
        LogRecord.exceptionOnly (PyErr.attributeError m)])
  | Except.error (PyErr.comError m) =>
      (Except.error (PyErr.comError m),
       [LogRecord.comErrorContext op clsname args m,
        LogRecord.exceptionOnly (PyErr.comError m)])
  | Except.error e => (Except.error e, [LogRecord.exceptionOnly e])

/-- Body of AllMethods.GetAssociatedSchedules (api.py lines 434-444):
wrapping the remote collection is attempted, and only an AttributeError is
replaced by an empty list; remote schedule handles are modelled by
numbers. -/
def GetAssociatedSchedulesBody (remote : Except PyErr (List Nat)) : Except PyErr (List Nat) :=
  match remote with
  | Except.ok s => Except.ok s
  | Except.error (PyErr.attributeError _) => Except.ok []
  | Except.error e => Except.error e

/-- Body of the effective AllMethods.CreateObject, the JobScheduler-gated
definition at api.py lines 770-777 that shadows the earlier one in the class
body: any failure of the remote creation is logged as a warning and None is
returned instead of re-raising. -/
def CreateObjectBody (remote : Except PyErr Nat) : Except PyErr (Option Nat) :=
  match remote with
  | Except.ok x => Except.ok (some x)
  | Except.error _ => Except.ok none

/-! ### Lite/full counterpart caching
(Job.LiteObject, api.py lines 967-971; JobLite.FullObject, lines 987-991) -/

/-- State of a full Job proxy relevant to the LiteObject property: the
stable remote ID and the private cache slot self.__liteobj. -/
structure Job where
  id : Nat
  liteobj : Option Nat
deriving DecidableEq, Repr

/-- Job.LiteObject: on an empty cache slot, fetch the counterpart through
the scheduler (modelled by the deterministic fetch environment mapping IDs
to counterpart objects), store it in the slot, and count one remote fetch;
on a filled slot return the stored instance and fetch nothing.  Returns the
value, the updated proxy, and the updated fetch count. -/
def Job.LiteObject (fetch : Nat → Nat) (p : Job) (fetchCount : Nat) :
    Nat × Job × Nat :=
  match p.liteobj with
  | some v => (v, p, fetchCount)
  | none =>
      let v := fetch p.id
      (v, { p with liteobj := some v }, fetchCount + 1)

/-- State of a lite Job proxy relevant to the FullObject property: the
stable remote ID and the private cache slot self.__fullobj. -/
structure JobLite where
  id : Nat
  fullobj : Option Nat
deriving DecidableEq, Repr

/-- JobLite.FullObject, structurally identical to Job.LiteObject with the
opposite density. -/
def JobLite.FullObject (fetch : Nat → Nat) (p : JobLite) (fetchCount : Nat) :
    Nat × JobLite × Nat :=
  match p.fullobj with
  | some v => (v, p, fetchCount)
  | none =>
      let v := fetch p.id
      (v, { p with fullobj := some v }, fetchCount + 1)

/-! ### Move validation (AllMethods.MoveObjectTo, api.py lines 702-730) -/

/-- Outcome of a performed remote MoveObject call. -/
inductive MoveOutcome where
  | moved (sourceKey destinationKey : String)
deriving DecidableEq, Repr

/-- Container test of api.py line 726: the destination type name is one of
abatOT_Folder or abatOT_Plan (the folder-equivalent variants; plans and
folders share raw code 3 on pre-10 services per the errata comment). -/
def isContainerName (name : String) : Bool :=
  ["abatOT_Folder", "abatOT_Plan"].contains name

/-- AllMethods.MoveObjectTo with create_if_not_exists left False: destType
is the raw integer the remote GetObjectType reports for the destination key;
the remote MoveObject call happens only when the mapped name is a container
name, otherwise ValueError is raised and no move is performed. -/
def MoveObjectTo (destType : Nat) (sourceKey destinationKey : String) :
    Except PyErr MoveOutcome :=
  match objectTypeName destType with
  | Except.error e => Except.error e
  | Except.ok name =>
      if isContainerName name then
        Except.ok (MoveOutcome.moved sourceKey destinationKey)
      else
        Except.error (PyErr.valueError
          ("The destination key '" ++ destinationKey ++ "' is not a folder'"))

/-! ### Plan attribute fallback (Plan.__getattr__, api.py lines 1296-1305) -/

/-- Allow-spec of the NextScheduledExecutionDateTime property (api.py line
238).  The full Plan variant is absent from it, so on a full Plan proxy the
inherited property raises AttributeError and Python falls back to
Plan.__getattr__ for that name. -/
def nsedtSpec : AllowSpec :=
  AllowSpec.list ["PlanLite", "Job", "JobLite", "ReferenceLite"]

/-- Plan.__getattr__ as a fuel-indexed lookup.  liteValue is the
NextScheduledExecutionDateTime of the lazily materialized lite counterpart.
For any other name the body returns self.item; the name item is not an
attribute any Plan instance or class defines, so evaluating self.item
re-enters __getattr__ with the literal name item.  The fuel bounds the
recursion depth; none means no result was produced within that depth. -/
def planGetattr (liteValue : String) : Nat → String → Option String
  | 0, _ =>  none
  | fuel + 1, item =>
      if item == "NextScheduledExecutionDateTime" then some liteValue
      else planGetattr liteValue fuel "item"

/-! ## Theorems -/

/-- C1 counterexample.  The Connect operation is gated by the single string
'JobScheduler', whose allow-list reading is the set containing only
JobScheduler; the Job variant is neither the wildcard nor a member of that
set, yet dispatch forwards the call to the remote handle (Python evaluates
'Job' in 'JobScheduler' as substring containment), refuting the stated
iff. -/
theorem capability_dispatch_spec_refuted :
    ("Connect", AllowSpec.str "JobScheduler") ∈ capabilityTable ∧
    "Job" ∈ variantNames ∧
    claimAllows (AllowSpec.str "JobScheduler") "Job" = false ∧
    runnableInvoke "Connect" (AllowSpec.str "JobScheduler") "Job" = (Except.ok (), 1) := by
  decide

/-- C1 (amended).  For every operation in the capability table and every
proxy variant: dispatch forwards to the remote handle iff the allow-list
contains the wildcard 'All' or the variant name, except that membership in
a single-string allow-spec is substring containment, which additionally
forwards the Job and Schedule variants on operations gated by the string
'JobScheduler' and the Calendar variant on the operation gated by
'CalendarLite'; in every non-forwarding case the raised error carries the
operation name, the variant, and the joined allow-spec, and no remote call
occurs. -/
theorem capability_dispatch_characterization :
    ∀ e ∈ capabilityTable, ∀ v ∈ variantNames,
      ((runnableInvoke e.1 e.2 v = (Except.ok (), 1)) ↔
        (claimAllows e.2 v = true ∨ substringDeviation e.2 v = true)) ∧
      (runnableAllows e.2 v = false →
        runnableInvoke e.1 e.2 v = (Except.error ⟨e.1, v, pyJoinSpec e.2⟩, 0)) := by
  decide

/-- C1 witness: the characterization applied to the Connect operation and
the Plan variant. -/
theorem capability_dispatch_characterization_witness :
    ((runnableInvoke "Connect" (AllowSpec.str "JobScheduler") "Plan" = (Except.ok (), 1)) ↔
      (claimAllows (AllowSpec.str "JobScheduler") "Plan" = true ∨
       substringDeviation (AllowSpec.str "JobScheduler") "Plan" = true)) ∧
    (runnableAllows (AllowSpec.str "JobScheduler") "Plan" = false →
      runnableInvoke "Connect" (AllowSpec.str "JobScheduler") "Plan" =
        (Except.error ⟨"Connect", "Plan", pyJoinSpec (AllowSpec.str "JobScheduler")⟩, 0)) :=
  capability_dispatch_characterization ("Connect", AllowSpec.str "JobScheduler") (by decide)
    "Plan" (by decide)

/-- C2.  Resolving raw type code 3 with service version at most 9 returns 3
(the Plan code) when DisableTemplateOnError is readable on the fetched full
object, returns 14 (the Folder code) when only
ReplacePermissionsOnChildObjects is readable, and re-raises the probe's
AttributeError (the fatal ambiguous case) when neither is readable; with
version 10 or greater code 3 is returned directly with no property
probing. -/
theorem getObjectType_errata_resolution :
    (∀ (version : Nat) (h : AbatHandle), version ≤ 9 →
      (h.hasDisableTemplateOnError = true →
        AllMethods.GetObjectType version 3 h = (Except.ok 3, ["DisableTemplateOnError"]) ∧
        objectTypeName 3 = Except.ok "abatOT_Plan") ∧
      (h.hasDisableTemplateOnError = false → h.hasReplacePermissionsOnChildObjects = true →
        AllMethods.GetObjectType version 3 h =
          (Except.ok 14, ["DisableTemplateOnError", "ReplacePermissionsOnChildObjects"]) ∧
        objectTypeName 14 = Except.ok "abatOT_Folder") ∧
      (h.hasDisableTemplateOnError = false → h.hasReplacePermissionsOnChildObjects = false →
        (AllMethods.GetObjectType version 3 h).1 =
          Except.error (PyErr.attributeError "ReplacePermissionsOnChildObjects"))) ∧
    (∀ (version : Nat) (h : AbatHandle), 10 ≤ version →
      AllMethods.GetObjectType version 3 h = (Except.ok 3, []) ∧
      objectTypeName 3 = Except.ok "abatOT_Plan") := by
  constructor
  · intro version h hv
    refine ⟨fun hd => ⟨?_, by decide⟩, fun hd he => ⟨?_, by decide⟩, fun hd he => ?_⟩ <;>
      simp [AllMethods.GetObjectType, hv, hd]
    · simp [he]
    · simp [he]
  · intro version h hv
    have hnot : ¬ version ≤ 9 := by omega
    exact ⟨by simp [AllMethods.GetObjectType, hnot], by decide⟩

/-- C2 witness: the resolution evaluated at version 9 for all three handle
configurations and at version 10. -/
theorem getObjectType_errata_resolution_witness :
    (AllMethods.GetObjectType 9 3 ⟨true, false⟩ = (Except.ok 3, ["DisableTemplateOnError"]) ∧
      objectTypeName 3 = Except.ok "abatOT_Plan") ∧
    (AllMethods.GetObjectType 9 3 ⟨false, true⟩ =
      (Except.ok 14, ["DisableTemplateOnError", "ReplacePermissionsOnChildObjects"]) ∧
      objectTypeName 14 = Except.ok "abatOT_Folder") ∧
    (AllMethods.GetObjectType 9 3 ⟨false, false⟩).1 =
      Except.error (PyErr.attributeError "ReplacePermissionsOnChildObjects") ∧
    (AllMethods.GetObjectType 10 3 ⟨true, false⟩ = (Except.ok 3, []) ∧
      objectTypeName 3 = Except.ok "abatOT_Plan") :=
  ⟨(getObjectType_errata_resolution.1 9 ⟨true, false⟩ (by decide)).1 rfl,
   (getObjectType_errata_resolution.1 9 ⟨false, true⟩ (by decide)).2.1 rfl rfl,
   (getObjectType_errata_resolution.1 9 ⟨false, false⟩ (by decide)).2.2 rfl rfl,
   getObjectType_errata_resolution.2 10 ⟨true, false⟩ (by decide)⟩

/-- C3.  Evaluation of the create-missing-containers step on the
destination "/a/b/c".  Against a tree holding only the root "/" (none of
/a, /a/b, /a/b/c exists) the code creates exactly TWO containers, b at
/a/b and c at /a/b/c, skipping the top-level folder a because the idx = 1
special case probes the root path "/" instead of "/a"; the first creation
is attached under the nonexistent parent /a, violating strict root-to-leaf
order.  Against a tree where /a/b already exists exactly one container is
created, and when the full path exists none is, as the claim states. -/
theorem create_intermediate_folders_eval :
    create_intermediate_folders ["/"] "/a/b/c" =
      Except.ok [⟨"/a/b", "/a", "b"⟩, ⟨"/a/b/c", "/a/b", "c"⟩] ∧
    attachRootToLeaf ["/"] [⟨"/a/b", "/a", "b"⟩, ⟨"/a/b/c", "/a/b", "c"⟩] = false ∧
    create_intermediate_folders ["/", "/a/b"] "/a/b/c" =
      Except.ok [⟨"/a/b/c", "/a/b", "c"⟩] ∧
    create_intermediate_folders ["/", "/a/b", "/a/b/c"] "/a/b/c" = Except.ok [] := by
  decide

/-- C8.  A plain numeric destination key is detected and the warning path
taken, but the step then raises TypeError instead of completing normally:
which_exists returns the singleton int-keyed dict, and the creation loop
iterates its integer key and immediately subscripts it. -/
theorem create_intermediate_folders_numeric_key_eval :
    whichExists ["/", "/a/b"] "12345" = WhichExistsResult.numericDict 12345 false ∧
    create_intermediate_folders ["/", "/a/b"] "12345" =
      Except.error (PyErr.typeError "argument of type 'int' is not subscriptable") := by
  decide

/-- C4.  The daily, monthly and time components evaluate exactly as the
claim states, but every weekly day component - including the end-to-end
scenario - fails with RuntimeError because constructing enum.ScheduleDays
evaluates a zero-argument super() inside a nested function; the repaired
weekly component (ScheduleDays read as intended) produces exactly the
claimed strings. -/
theorem schedule_name_synthesis_eval :
    Schedule.d_daily 1 = "EveryDay" ∧
    Schedule.d_daily 3 = "Every3Days" ∧
    Schedule.d_weekly 1 10 = Except.error (PyErr.runtimeError "super(): no arguments") ∧
    Schedule.d_weekly_repaired 1 10 = "EveryWeek.MonWed" ∧
    Schedule.d_monthly 1 1 21 0 0 "" = Except.ok "EveryMonth.21st" ∧
    Schedule.t_hoursminutes 9 1 = "0901" ∧
    Schedule.t_every 10 = "Every_10m" ∧
    Schedule.typemapper weeklySpecMonWed =
      Except.error (PyErr.runtimeError "super(): no arguments") ∧
    Schedule.typemapper_repaired weeklySpecTueThu = Except.ok "Every2Weeks.TueThu_1430" := by
  decide

/-- C9.  Constructing ScheduleDays on the bitmask 38 fails with the
RuntimeError raised by the zero-argument super() in the nested str_days
helper; under the modelled intent of that helper, for every bitmask from 1
to 127 the day names are exactly those whose bit values are set, in
low-bit-first order, the integer list carries the corresponding bit values
in the same order, and its sum round-trips to the bitmask. -/
theorem scheduleDays_eval_and_intended_roundtrip :
    ScheduleDays.construct 38 =
      Except.error (PyErr.runtimeError "super(): no arguments") ∧
    (∀ v : Nat, v ≤ 127 → 1 ≤ v →
      ScheduleDays.str_days_intended v = setDayNames v ∧
      ScheduleDays.int_days_intended v = setDayBits v ∧
      (ScheduleDays.int_days_intended v).sum = v) := by
  exact ⟨by decide, by decide⟩

/-- C9 witness: the round-trip at the bitmask 38. -/
theorem scheduleDays_roundtrip_witness :
    ScheduleDays.str_days_intended 38 = setDayNames 38 ∧
    ScheduleDays.int_days_intended 38 = setDayBits 38 ∧
    (ScheduleDays.int_days_intended 38).sum = 38 :=
  scheduleDays_eval_and_intended_roundtrip.2 38 (by decide) (by decide)

/-- C5 counterexample.  The effective CreateObject - a dispatched operation
other than the associated-schedules query - turns any remote failure into
the sentinel None instead of re-raising, refuting the claim that the
schedules query is the only operation that recovers locally. -/
theorem createObject_sentinel_counterexample :
    CreateObjectBody (Except.error (PyErr.comError "remote create failed")) =
      Except.ok none := by
  rfl

/-- C5 (amended).  Every failure inside a permitted dispatched call is
re-raised unchanged, with branch-dependent logging: an AttributeError is
logged with the operation and bound arguments (not the variant) plus the
exception, a COM failure with the operation, variant, bound arguments and
remote description plus the exception, and every other failure with only
the exception and no call context.  The layer recovers locally in exactly
two places: the associated-schedules query replaces an AttributeError with
an empty collection (passing successes and other failures through), and the
JobScheduler-gated CreateObject swallows every failure and returns None. -/
theorem error_recovery_policy :
    (∀ (op clsname args : String),
      runnableForward op clsname args (Except.ok () : Except PyErr Unit) =
        (Except.ok (), [])) ∧
    (∀ (op clsname args m : String),
      runnableForward op clsname args
          (Except.error (PyErr.attributeError m) : Except PyErr Unit) =
        (Except.error (PyErr.attributeError m),
         [LogRecord.attributeWarning op args,
          LogRecord.exceptionOnly (PyErr.attributeError m)])) ∧
    (∀ (op clsname args m : String),
      runnableForward op clsname args
          (Except.error (PyErr.comError m) : Except PyErr Unit) =
        (Except.error (PyErr.comError m),
         [LogRecord.comErrorContext op clsname args m,
          LogRecord.exceptionOnly (PyErr.comError m)])) ∧
    (∀ (op clsname args m : String),
      runnableForward op clsname args
          (Except.error (PyErr.runtimeError m) : Except PyErr Unit) =
        (Except.error (PyErr.runtimeError m),
         [LogRecord.exceptionOnly (PyErr.runtimeError m)])) ∧
    (∀ (op clsname args m : String),
      runnableForward op clsname args
          (Except.error (PyErr.typeError m) : Except PyErr Unit) =
        (Except.error (PyErr.typeError m),
         [LogRecord.exceptionOnly (PyErr.typeError m)])) ∧
    (∀ (op clsname args m : String),
      runnableForward op clsname args
          (Except.error (PyErr.valueError m) : Except PyErr Unit) =
        (Except.error (PyErr.valueError m),
         [LogRecord.exceptionOnly (PyErr.valueError m)])) ∧
    (∀ (op clsname args m : String),
      runnableForward op clsname args
          (Except.error (PyErr.keyError m) : Except PyErr Unit) =
        (Except.error (PyErr.keyError m),
         [LogRecord.exceptionOnly (PyErr.keyError m)])) ∧
    (∀ m, GetAssociatedSchedulesBody (Except.error (PyErr.attributeError m)) = Except.ok []) ∧
    (∀ s, GetAssociatedSchedulesBody (Except.ok s) = Except.ok s) ∧
    (∀ m, GetAssociatedSchedulesBody (Except.error (PyErr.comError m)) =
      Except.error (PyErr.comError m)) ∧
    (∀ e, CreateObjectBody (Except.error e) = Except.ok none) :=
  ⟨fun _ _ _ => rfl, fun _ _ _ _ => rfl, fun _ _ _ _ => rfl, fun _ _ _ _ => rfl,
   fun _ _ _ _ => rfl, fun _ _ _ _ => rfl, fun _ _ _ _ => rfl,
   fun _ => rfl, fun _ => rfl, fun _ => rfl, fun _ => rfl⟩

/-- C6.  With an empty cache slot, the counterpart accessor performs
exactly one remote fetch and stores the result; invoking it again on the
updated proxy returns the same cached instance with no further fetch; and a
second, independently retrieved proxy (its own slot empty, even for the
same remote ID) performs its own fetch.  Stated for Job.LiteObject and
JobLite.FullObject. -/
theorem counterpart_cache_single_fetch :
    (∀ (fetch : Nat → Nat) (p : Job) (c : Nat), p.liteobj = none →
      (Job.LiteObject fetch p c).2.2 = c + 1 ∧
      Job.LiteObject fetch (Job.LiteObject fetch p c).2.1 (Job.LiteObject fetch p c).2.2 =
        ((Job.LiteObject fetch p c).1, (Job.LiteObject fetch p c).2.1, c + 1) ∧
      (∀ q : Job, q.liteobj = none →
        (Job.LiteObject fetch q (Job.LiteObject fetch p c).2.2).2.2 = c + 2)) ∧
    (∀ (fetch : Nat → Nat) (p : JobLite) (c : Nat), p.fullobj = none →
      (JobLite.FullObject fetch p c).2.2 = c + 1 ∧
      JobLite.FullObject fetch (JobLite.FullObject fetch p c).2.1
          (JobLite.FullObject fetch p c).2.2 =
        ((JobLite.FullObject fetch p c).1, (JobLite.FullObject fetch p c).2.1, c + 1) ∧
      (∀ q : JobLite, q.fullobj = none →
        (JobLite.FullObject fetch q (JobLite.FullObject fetch p c).2.2).2.2 = c + 2)) := by
  constructor
  · intro fetch p c hp
    refine ⟨by simp [Job.LiteObject, hp], by simp [Job.LiteObject, hp], ?_⟩
    intro q hq
    simp [Job.LiteObject, hp, hq]
  · intro fetch p c hp
    refine ⟨by simp [JobLite.FullObject, hp], by simp [JobLite.FullObject, hp], ?_⟩
    intro q hq
    simp [JobLite.FullObject, hp, hq]

/-- C6 witness: the caching behavior at a concrete proxy of ID 7, a fetch
environment mapping the ID to 107, and fetch count 0. -/
theorem counterpart_cache_single_fetch_witness :
    (Job.LiteObject (fun i => i + 100) ⟨7, none⟩ 0).2.2 = 0 + 1 ∧
    (Job.LiteObject (fun i => i + 100) ⟨7, none⟩
      (Job.LiteObject (fun i => i + 100) ⟨7, none⟩ 0).2.2).2.2 = 0 + 2 ∧
    (JobLite.FullObject (fun i => i + 100) ⟨7, none⟩ 0).2.2 = 0 + 1 :=
  ⟨(counterpart_cache_single_fetch.1 (fun i => i + 100) ⟨7, none⟩ 0 rfl).1,
   (counterpart_cache_single_fetch.1 (fun i => i + 100) ⟨7, none⟩ 0 rfl).2.2 ⟨7, none⟩ rfl,
   (counterpart_cache_single_fetch.2 (fun i => i + 100) ⟨7, none⟩ 0 rfl).1⟩

/-- C7.  Whenever the destination key's raw type resolves to a container
(folder-equivalent) name the move is performed without error, and whenever
it resolves to a non-container name the operation fails with ValueError and
the move is not performed. -/
theorem moveObjectTo_container_gate (code : Nat) (sourceKey destinationKey : String) :
    ∀ name, objectTypeName code = Except.ok name →
      (isContainerName name = true →
        MoveObjectTo code sourceKey destinationKey =
          Except.ok (MoveOutcome.moved sourceKey destinationKey)) ∧
      (isContainerName name = false →
        MoveObjectTo code sourceKey destinationKey =
          Except.error (PyErr.valueError
            ("The destination key '" ++ destinationKey ++ "' is not a folder'"))) := by
  intro name hn
  refine ⟨fun hc => ?_, fun hc => ?_⟩ <;> simp [MoveObjectTo, hn, hc]

/-- C7 witness: moving into a Folder destination succeeds and moving into a
Job destination fails with ValueError. -/
theorem moveObjectTo_container_gate_witness :
    MoveObjectTo 14 "/src/job" "/dest/folder" =
      Except.ok (MoveOutcome.moved "/src/job" "/dest/folder") ∧
    MoveObjectTo 2 "/src/job" "/dest/job" =
      Except.error (PyErr.valueError "The destination key '/dest/job' is not a folder'") :=
  ⟨(moveObjectTo_container_gate 14 "/src/job" "/dest/folder" "abatOT_Folder" (by decide)).1
      (by decide),
   (moveObjectTo_container_gate 2 "/src/job" "/dest/job" "abatOT_Job" (by decide)).2
      (by decide)⟩

/-- Helper: the fallback lookup of the literal name item never produces a
result at any recursion depth. -/
theorem planGetattr_item_none (liteValue : String) :
    ∀ fuel, planGetattr liteValue fuel "item" = none := by
  intro fuel
  induction fuel with
  | zero => rfl
  | succ n ih =>
      have hne : ("item" == "NextScheduledExecutionDateTime") = false := by decide
      simp [planGetattr, hne, ih]

/-- C10.  On a full Plan proxy the NextScheduledExecutionDateTime property
is gated away (its allow-list lacks Plan), so lookup falls back to
Plan.__getattr__, which returns the lite counterpart's value; but for every
other missing attribute name, at every recursion depth, the fallback
produces no result - the body self.item re-enters __getattr__ with the name
item unboundedly instead of terminating. -/
theorem plan_getattr_behavior :
    runnableAllows nsedtSpec "Plan" = false ∧
    (∀ (liteValue : String) (fuel : Nat),
      planGetattr liteValue (fuel + 1) "NextScheduledExecutionDateTime" = some liteValue) ∧
    (∀ (liteValue name : String), name ≠ "NextScheduledExecutionDateTime" →
      ∀ fuel, planGetattr liteValue fuel name = none) := by
  refine ⟨by decide, fun liteValue fuel => rfl, fun liteValue name hne fuel => ?_⟩
  cases fuel with
  | zero => rfl
  | succ n =>
      have h : (name == "NextScheduledExecutionDateTime") = false := by
        simpa using hne
      simp [planGetattr, h, planGetattr_item_none]

/-- C10 witness: the fallback at the missing name ExecutionDateTime finds
nothing at depth 5, while NextScheduledExecutionDateTime yields the lite
counterpart's value. -/
theorem plan_getattr_behavior_witness :
    planGetattr "2024-01-01 00:00:00" 5 "ExecutionDateTime" = none ∧
    planGetattr "2024-01-01 00:00:00" 1 "NextScheduledExecutionDateTime" =
      some "2024-01-01 00:00:00" :=
  ⟨plan_getattr_behavior.2.2 "2024-01-01 00:00:00" "ExecutionDateTime" (by decide) 5,
   plan_getattr_behavior.2.1 "2024-01-01 00:00:00" 0⟩

end ActivebatchAdmin
